import Mathlib

/-!
Shallow embedding of the database layer of `mgmt` (`src/db.rs`) together with
the parts of the configuration data model that the specification describes.

The Rust code issues SQL statements against a MySQL-compatible store through
sqlx, inside one transaction.  We model the transaction's view of the store as
an explicit `Db` state and each `db.rs` function as a pure state transformer
translated from its SQL statement under MySQL's documented statement
semantics:

* `execute(...).last_insert_id()` (sqlx `MySqlQueryResult::last_insert_id`,
  the OK-packet value, i.e. `mysql_insert_id()`) is statement-scoped: it is
  the first AUTO_INCREMENT value generated for a row actually inserted by the
  statement, and 0 when the statement inserted no row (in particular for any
  DELETE, and for an `INSERT ... ON DUPLICATE KEY UPDATE` that takes the
  update path).
* `fetch_one` fails with a row-not-found error when the query returns no row.
* A scalar subquery that selects no row yields SQL NULL.
* The `VALUES(col)` information function is meaningful only inside the
  `ON DUPLICATE KEY UPDATE` clause of an INSERT and evaluates to NULL
  anywhere else, including inside subqueries in the VALUES list.
* A SQL `WHERE a = b` comparison is three-valued: it selects a row only when
  both operands are non-NULL and equal.

Schema facts that are not visible in `src/` (the DDL lives outside the
sources given) are modelled from the spec's data model, §3: `id` columns are
AUTO_INCREMENT and NOT NULL, `environment.name` and `section.name` carry
unique keys, ConfigValue's `section_id` and `value_type_id` are NOT NULL
while `default_id` is nullable, and the EnvironmentConfigValue join entity is
a bare `{environment_id, config_value_id}` pair with no uniqueness
constraint of its own.
-/

/-- Row of the `environments` table: `{id, name (unique), namespace}`. -/
structure EnvRow where
  id : Nat
  name : String
  nspace : String
deriving Repr, DecidableEq

/-- Row of the `config_sections` table.  The `name` column is treated as
nullable because `list_sections` in `db.rs` receives it as an `Option` and
filters the NULLs out. -/
structure SectionRow where
  id : Nat
  name : Option String
deriving Repr, DecidableEq

/-- Row of the `config_value_types` table. -/
structure ValueTypeRow where
  id : Nat
  name : String
deriving Repr, DecidableEq

/-- Row of the `config_defaults` table: the canonical value for
`(section, key)`. -/
structure DefaultRow where
  id : Nat
  section_id : Nat
  cfg_key : String
  cfg_value : String
  value_type_id : Nat
deriving Repr, DecidableEq

/-- Row of the `config_values` table.  Per the spec's data model only
`default_id` is nullable. -/
structure ConfigValueRow where
  id : Nat
  section_id : Nat
  cfg_key : String
  cfg_value : String
  value_type_id : Nat
  default_id : Option Nat
deriving Repr, DecidableEq

/-- Row of the `environments_config_values` join table. -/
structure EnvCfgRow where
  environment_id : Nat
  config_value_id : Nat
deriving Repr, DecidableEq

/-- The transaction's view of the store: each table as a list of rows in
insertion order, plus the AUTO_INCREMENT counter of each table that the
`db.rs` statements insert into. -/
structure Db where
  environments : List EnvRow
  env_next : Nat
  config_sections : List SectionRow
  section_next : Nat
  config_value_types : List ValueTypeRow
  config_defaults : List DefaultRow
  config_values : List ConfigValueRow
  cfg_next : Nat
  environments_config_values : List EnvCfgRow
deriving Repr, DecidableEq

/-- Errors surfaced by the modelled statements: sqlx's row-not-found from
`fetch_one`, and the server rejecting NULL for a NOT NULL column. -/
inductive DbError where
  | rowNotFound : DbError
  | nullConstraint : String → DbError
deriving Repr, DecidableEq

/-- Result of `execute()`: the OK packet's affected-row count and
statement-scoped last insert id. -/
structure QueryResult where
  rows_affected : Nat
  last_insert_id : Nat
deriving Repr, DecidableEq

/-- Three-valued SQL equality as used in WHERE clauses: TRUE only when both
operands are non-NULL and equal. -/
def sqlEqTrue [BEq α] : Option α → Option α → Bool
  | some a, some b => a == b
  | _, _ => false

/-- Value of `VALUES(cfg_key)` in the `set_config_value` insert: the
`VALUES()` information function evaluates to NULL outside an
`ON DUPLICATE KEY UPDATE` clause, and this insert has no such clause. -/
def insertValuesCfgKey : Option String := none

/-- Value of `VALUES(section_id)` in the `set_config_value` insert: NULL for
the same reason as `insertValuesCfgKey`. -/
def insertValuesSectionId : Option Nat := none

/-- Translation of `upsert_environment` (`db.rs` lines 3-18):
`INSERT INTO environments (name, namespace) VALUES (?, ?)
 ON DUPLICATE KEY UPDATE name = VALUES(name)`, returning
`last_insert_id()`.  On a duplicate of the unique `name` key the UPDATE
clause rewrites `name` to the inserted name and touches nothing else; no row
is inserted, so the statement's last insert id is 0. -/
def upsert_environment (db : Db) (environment nspace : String) : Db × Nat :=
  match db.environments.find? (fun r => r.name == environment) with
  | some _ =>
      ({ db with environments := db.environments.map (fun r =>
            if r.name == environment then { r with name := environment } else r) }, 0)
  | none =>
      ({ db with
          environments := db.environments ++ [⟨db.env_next, environment, nspace⟩],
          env_next := db.env_next + 1 }, db.env_next)

/-- Translation of `get_env_id` (`db.rs` lines 20-34):
`SELECT id FROM environments WHERE name = ?` run through `fetch_one`, which
fails with a row-not-found error when no row matches; the selected `id` is
typed as nullable by the sqlx macro, hence the `Option` in the result. -/
def get_env_id (db : Db) (environment : String) : Except DbError (Option Nat) :=
  match db.environments.find? (fun r => r.name == environment) with
  | some r => Except.ok (some r.id)
  | none => Except.error DbError.rowNotFound

/-- Translation of `add_section` (`db.rs` lines 36-46):
`INSERT INTO config_sections (name) VALUES (?) ON DUPLICATE KEY UPDATE
 id = id`, returning `last_insert_id()`.  On a duplicate name the UPDATE
clause assigns `id` to itself; no row is inserted, so the statement's last
insert id is 0. -/
def add_section (db : Db) (sect : String) : Db × Nat :=
  match db.config_sections.find? (fun r => r.name == some sect) with
  | some _ =>
      ({ db with config_sections := db.config_sections.map (fun r =>
            if r.name == some sect then { r with id := r.id } else r) }, 0)
  | none =>
      ({ db with
          config_sections := db.config_sections ++ [⟨db.section_next, some sect⟩],
          section_next := db.section_next + 1 }, db.section_next)

/-- The `DELETE FROM config_sections WHERE name = ?` statement of
`delete_section`, with the full OK-packet result: the affected-row count is
the number of rows removed, and a DELETE generates no AUTO_INCREMENT value
so its last insert id is 0. -/
def delete_section_exec (db : Db) (sect : String) : Db × QueryResult :=
  let kept := db.config_sections.filter (fun r => !sqlEqTrue r.name (some sect))
  ({ db with config_sections := kept },
   ⟨db.config_sections.length - kept.length, 0⟩)

/-- Translation of `delete_section` (`db.rs` lines 48-58): runs the DELETE
and returns `last_insert_id()` of the result — not `rows_affected()`. -/
def delete_section (db : Db) (sect : String) : Db × Nat :=
  let res := delete_section_exec db sect
  (res.1, res.2.last_insert_id)

/-- Translation of `list_sections` (`db.rs` lines 60-70):
`SELECT name FROM config_sections` fetched as a list, then
`filter_map(|s| s.name)` drops the rows whose name is NULL. -/
def list_sections (db : Db) : List String :=
  db.config_sections.filterMap (fun s => s.name)

/-- Translation of `set_config_value` (`db.rs` lines 72-99): inserts into
`config_values` with `section_id` and `value_type_id` taken from scalar
subqueries over the respective name, and `default_id` from
`SELECT id FROM config_defaults WHERE cfg_key = VALUES(cfg_key) AND
 section_id = VALUES(section_id)`; returns `last_insert_id()`.  A subquery
with no matching row yields NULL; NULL in the NOT NULL columns `section_id`
or `value_type_id` (spec §3: only `default_id` is nullable) makes the insert
fail, `section_id` being the first such column in the row. -/
def set_config_value (db : Db) (sect key value value_type : String) :
    Except DbError (Db × Nat) :=
  match (db.config_sections.find? (fun r => r.name == some sect)).map SectionRow.id,
        (db.config_value_types.find? (fun r => r.name == value_type)).map ValueTypeRow.id with
  | none, _ => Except.error (DbError.nullConstraint "section_id")
  | some _, none => Except.error (DbError.nullConstraint "value_type_id")
  | some sid, some vid =>
      let default_id : Option Nat :=
        (db.config_defaults.find? (fun d =>
            sqlEqTrue (some d.cfg_key) insertValuesCfgKey &&
            sqlEqTrue (some d.section_id) insertValuesSectionId)).map DefaultRow.id
      Except.ok
        ({ db with
            config_values :=
              db.config_values ++ [⟨db.cfg_next, sid, key, value, vid, default_id⟩],
            cfg_next := db.cfg_next + 1 }, db.cfg_next)

/-- Translation of `add_env_cfg_value` (`db.rs` lines 101-116):
`INSERT INTO environments_config_values (environment_id, config_value_id)
 VALUES (?, ?)`, returning `last_insert_id()`.  Modelled from the spec: the
join entity of §3 is a bare pair with no AUTO_INCREMENT id column and no
uniqueness constraint, so the insert always succeeds and the statement's
last insert id is 0. -/
def add_env_cfg_value (db : Db) (env_id cfg_id : Nat) : Db × Nat :=
  ({ db with
      environments_config_values :=
        db.environments_config_values ++ [⟨env_id, cfg_id⟩] }, 0)

/-- Modelled from the spec: the Value Merge Engine's per-key resolution (its
code is not among the given sources).  Among the ConfigValue rows for
`(section_id, key)` that are linked to the environment through
`environments_config_values`, it selects the most recently inserted one
("last write wins"); `config_values` is kept in insertion order, so that is
the last matching row. -/
def resolve_value_row (db : Db) (env_id sid : Nat) (key : String) :
    Option ConfigValueRow :=
  (db.config_values.filter (fun cv =>
      cv.section_id == sid && cv.cfg_key == key &&
      db.environments_config_values.any (fun e =>
        e.environment_id == env_id && e.config_value_id == cv.id))).getLast?

/-- Modelled from the spec: full resolution for `(environment, section, key)`
per the §3 invariant — the latest linked ConfigValue if present, else the
Default, else missing. -/
def resolve (db : Db) (env_id sid : Nat) (key : String) : Option String :=
  match resolve_value_row db env_id sid key with
  | some cv => some cv.cfg_value
  | none =>
      (db.config_defaults.find? (fun d =>
          d.section_id == sid && d.cfg_key == key)).map DefaultRow.cfg_value

/-- The empty store, with every AUTO_INCREMENT counter at its MySQL starting
value 1. -/
def dbEmpty : Db :=
  { environments := [], env_next := 1,
    config_sections := [], section_next := 1,
    config_value_types := [], config_defaults := [],
    config_values := [], cfg_next := 1,
    environments_config_values := [] }

/-- A store holding one section named "a". -/
def dbSectionA : Db :=
  { dbEmpty with config_sections := [⟨1, some "a"⟩], section_next := 2 }

/-- A store holding the section "db", the value type "string", and the
Default `(db, host) = "db.local"`. -/
def dbWithDefault : Db :=
  { dbEmpty with
      config_sections := [⟨1, some "db"⟩], section_next := 2,
      config_value_types := [⟨1, "string"⟩],
      config_defaults := [⟨1, 1, "host", "db.local", 1⟩] }

/-- A store holding the section "db" and the value type "string", with no
defaults and no values yet. -/
def dbW : Db :=
  { dbEmpty with
      config_sections := [⟨1, some "db"⟩], section_next := 2,
      config_value_types := [⟨1, "string"⟩] }

/-- `dbW` after `set_config_value dbW "db" "host" "A" "string"`. -/
def db1W : Db :=
  { dbW with config_values := [⟨1, 1, "host", "A", 1, none⟩], cfg_next := 2 }

/-- `db1W` after `add_env_cfg_value db1W 7 1`. -/
def db2W : Db :=
  { db1W with environments_config_values := [⟨7, 1⟩] }

/-- `db2W` after `set_config_value db2W "db" "host" "B" "string"`. -/
def db3W : Db :=
  { db2W with
      config_values := [⟨1, 1, "host", "A", 1, none⟩, ⟨2, 1, "host", "B", 1, none⟩],
      cfg_next := 3 }

/-- `db3W` after `add_env_cfg_value db3W 7 2`. -/
def db4W : Db :=
  { db3W with environments_config_values := [⟨7, 1⟩, ⟨7, 2⟩] }

/-- `dbW` after `set_config_value dbW "db" "port" "5432" "string"`. -/
def db1X : Db :=
  { dbW with config_values := [⟨1, 1, "port", "5432", 1, none⟩], cfg_next := 2 }

/-- Claim C1: on the code, calling `upsert_environment` twice with the same
name does NOT yield the same identity both times: the first call returns the
fresh id 1, the second (conflict) call returns 0, because the statement's
last insert id is 0 when `ON DUPLICATE KEY UPDATE` inserts no row.  The
stored namespace is indeed left untouched by the second call. -/
theorem upsert_environment_conflict_id_zero :
    (upsert_environment dbEmpty "prod" "ns1").2 = 1 ∧
    (upsert_environment (upsert_environment dbEmpty "prod" "ns1").1 "prod" "ns2").2 = 0 ∧
    (upsert_environment (upsert_environment dbEmpty "prod" "ns1").1 "prod" "ns2").1.environments
      = [⟨1, "prod", "ns1"⟩] := by
  decide

/-- Claim C2: on the code, `get_env_id` for an unknown environment name
returns a row-not-found ERROR (the query runs through `fetch_one`), not an
empty Optional result. -/
theorem get_env_id_missing_errors :
    get_env_id dbEmpty "prod" = Except.error DbError.rowNotFound := by
  rfl

/-- Claim C3: on the code, `add_section` on an existing name does not return
the existing section's identity: the fresh insert returns 1, the repeated
insert returns 0 (no row inserted on the `ON DUPLICATE KEY UPDATE id = id`
path); the stored name is not overwritten. -/
theorem add_section_conflict_id_zero :
    (add_section dbEmpty "db").2 = 1 ∧
    (add_section (add_section dbEmpty "db").1 "db").2 = 0 ∧
    (add_section (add_section dbEmpty "db").1 "db").1.config_sections
      = [⟨1, some "db"⟩] := by
  decide

/-- Claim C4: on the code, `set_config_value` never links the inserted row to
an existing Default: with a Default for `(db, host)` present, the inserted
row still carries `default_id = NULL`, because `VALUES(cfg_key)` and
`VALUES(section_id)` evaluate to NULL outside an `ON DUPLICATE KEY UPDATE`
clause and so the `config_defaults` subquery matches no row. -/
theorem set_config_value_default_not_linked :
    set_config_value dbWithDefault "db" "host" "db.staging" "string" =
      Except.ok
        ({ dbWithDefault with
            config_values := [⟨1, 1, "host", "db.staging", 1, none⟩],
            cfg_next := 2 }, 1) := by
  rfl

/-- Claim C5: on the code, `delete_section` returns the statement's last
insert id — which is 0 for a DELETE no matter how many rows it removed — not
the affected-row count: deleting the existing section "a" affects 1 row yet
returns 0, and deleting a missing section also returns 0 without error. -/
theorem delete_section_ignores_affected_rows :
    (delete_section dbSectionA "a").2 = 0 ∧
    (delete_section_exec dbSectionA "a").2.rows_affected = 1 ∧
    (delete_section dbSectionA "missing").2 = 0 ∧
    (delete_section dbSectionA "missing").1 = dbSectionA := by
  decide

/-- Claim C9: `list_sections` returns exactly the non-NULL names of the
stored section rows: a name is listed iff some stored row carries it, and
rows whose name is NULL are silently omitted (the function is total, so no
stored NULL can make it fail). -/
theorem list_sections_mem_iff (db : Db) (n : String) :
    n ∈ list_sections db ↔ ∃ r, r ∈ db.config_sections ∧ r.name = some n := by
  simp [list_sections, List.mem_filterMap]

/-- Claim C10: `add_env_cfg_value` performs no deduplication: two calls with
the same `(environment_id, config_value_id)` pair append two association
rows to the join table (and cannot error — the modelled insert is total). -/
theorem add_env_cfg_value_no_dedup (db : Db) (e c : Nat) :
    (add_env_cfg_value (add_env_cfg_value db e c).1 e c).1.environments_config_values
      = db.environments_config_values ++ [⟨e, c⟩, ⟨e, c⟩] := by
  simp [add_env_cfg_value]

/-- Comparing any value against SQL NULL under three-valued equality is never
TRUE. -/
theorem sqlEqTrue_none_right [BEq α] (a : Option α) : sqlEqTrue a none = false := by
  cases a <;> rfl

/-- The `config_defaults` subquery of `set_config_value` selects no row in
any store, since both `VALUES()` references in its WHERE clause are NULL. -/
theorem find_defaults_values_none (db : Db) :
    db.config_defaults.find? (fun d =>
        sqlEqTrue (some d.cfg_key) insertValuesCfgKey &&
        sqlEqTrue (some d.section_id) insertValuesSectionId) = none := by
  apply List.find?_eq_none.mpr
  intro d _
  simp [insertValuesCfgKey, insertValuesSectionId, sqlEqTrue_none_right]

/-- Shape of a successful `set_config_value`: when both name lookups
resolve, the call appends exactly one row, carrying the fresh id and a NULL
`default_id`, and returns that id. -/
theorem set_config_value_eq_ok (db : Db) (sect key v vt : String)
    (srow : SectionRow) (vrow : ValueTypeRow)
    (hs : db.config_sections.find? (fun r => r.name == some sect) = some srow)
    (hv : db.config_value_types.find? (fun r => r.name == vt) = some vrow) :
    set_config_value db sect key v vt =
      Except.ok
        ({ db with
            config_values :=
              db.config_values ++ [⟨db.cfg_next, srow.id, key, v, vrow.id, none⟩],
            cfg_next := db.cfg_next + 1 }, db.cfg_next) := by
  unfold set_config_value
  rw [hs, hv]
  simp [find_defaults_values_none db]

/-- Filtering an append of a single matching element keeps it last. -/
theorem getLast?_filter_concat {α : Type} (p : α → Bool) (l : List α) (a : α)
    (h : p a = true) : ((l ++ [a]).filter p).getLast? = some a := by
  rw [List.filter_append]
  have ha : [a].filter p = [a] := by simp [h]
  rw [ha, List.getLast?_concat]

/-- Claim C6: `set_config_value` fails — with the NULL-constraint violation
through which the failed name lookup surfaces — whenever the section name or
the value-type name resolves to no row, so no ConfigValue row is inserted. -/
theorem set_config_value_lookup_error (db : Db) (sect key v vt : String)
    (h : db.config_sections.find? (fun r => r.name == some sect) = none ∨
         db.config_value_types.find? (fun r => r.name == vt) = none) :
    set_config_value db sect key v vt
        = Except.error (DbError.nullConstraint "section_id") ∨
    set_config_value db sect key v vt
        = Except.error (DbError.nullConstraint "value_type_id") := by
  cases hs : db.config_sections.find? (fun r => r.name == some sect) with
  | none =>
    left
    simp [set_config_value, hs]
  | some srow =>
    cases hv : db.config_value_types.find? (fun r => r.name == vt) with
    | none =>
      right
      simp [set_config_value, hs, hv]
    | some vrow =>
      rcases h with h | h
      · rw [hs] at h; exact absurd h (by simp)
      · rw [hv] at h; exact absurd h (by simp)

/-- Witness for C6: in the empty store the section lookup fails and the call
errors. -/
theorem set_config_value_lookup_error_witness :
    set_config_value dbEmpty "nope" "k" "v" "string"
        = Except.error (DbError.nullConstraint "section_id") ∨
    set_config_value dbEmpty "nope" "k" "v" "string"
        = Except.error (DbError.nullConstraint "value_type_id") :=
  set_config_value_lookup_error dbEmpty "nope" "k" "v" "string" (Or.inl rfl)

/-- Claim C7: ConfigValue storage is append-only: a successful
`set_config_value` appends exactly one row to `config_values` — every
previously inserted row is retained unchanged in place — and that row's
identity is fresh, distinct from every previously inserted row's id. -/
theorem set_config_value_append_only (db db2 : Db) (sect key v vt : String) (i : Nat)
    (hwf : db.config_values.all (fun r => r.id < db.cfg_next) = true)
    (h : set_config_value db sect key v vt = Except.ok (db2, i)) :
    (∃ r, db2.config_values = db.config_values ++ [r] ∧ r.id = i) ∧
    ∀ r0 ∈ db.config_values, r0.id ≠ i := by
  cases hs : db.config_sections.find? (fun r => r.name == some sect) with
  | none => simp [set_config_value, hs] at h
  | some srow =>
    cases hv : db.config_value_types.find? (fun r => r.name == vt) with
    | none => simp [set_config_value, hs, hv] at h
    | some vrow =>
      rw [set_config_value_eq_ok db sect key v vt srow vrow hs hv] at h
      simp only [Except.ok.injEq, Prod.mk.injEq] at h
      obtain ⟨hdb2, hi⟩ := h
      subst hi
      subst hdb2
      refine ⟨⟨_, rfl, rfl⟩, ?_⟩
      intro r0 hr0
      have hlt := List.all_eq_true.mp hwf r0 hr0
      simp only [decide_eq_true_eq] at hlt
      omega

/-- Witness for C7: applying the append-only theorem to a concrete store
with one section and one value type. -/
theorem set_config_value_append_only_witness :
    ((∃ r, db1X.config_values = dbW.config_values ++ [r] ∧ r.id = 1) ∧
     ∀ r0 ∈ dbW.config_values, r0.id ≠ 1) :=
  set_config_value_append_only dbW db1X "db" "port" "5432" "string" 1 (by rfl) (by rfl)

/-- Characterization of a successful `set_config_value` in terms of the
input store's lookups: it forces both name lookups to resolve, appends
exactly one row with the fresh id and a NULL `default_id`, and returns that
id. -/
theorem set_config_value_ok_shape (db db2 : Db) (sect key v vt : String) (i : Nat)
    (h : set_config_value db sect key v vt = Except.ok (db2, i)) :
    ∃ sid vid,
      (db.config_sections.find? (fun r => r.name == some sect)).map SectionRow.id
        = some sid ∧
      (db.config_value_types.find? (fun r => r.name == vt)).map ValueTypeRow.id
        = some vid ∧
      db2 = { db with
          config_values := db.config_values ++ [⟨db.cfg_next, sid, key, v, vid, none⟩],
          cfg_next := db.cfg_next + 1 } ∧
      i = db.cfg_next := by
  cases hs : db.config_sections.find? (fun r => r.name == some sect) with
  | none => simp [set_config_value, hs] at h
  | some srow =>
    cases hv : db.config_value_types.find? (fun r => r.name == vt) with
    | none => simp [set_config_value, hs, hv] at h
    | some vrow =>
      rw [set_config_value_eq_ok db sect key v vt srow vrow hs hv] at h
      simp only [Except.ok.injEq, Prod.mk.injEq] at h
      obtain ⟨hdb2, hi⟩ := h
      exact ⟨srow.id, vrow.id, by simp [hs], by simp [hv], hdb2.symm, hi.symm⟩

/-- Claim C8: last write wins.  After inserting two ConfigValues for the same
`(environment, section, key)` in sequence — each via `set_config_value`
followed by `add_env_cfg_value` — resolution for that triple returns the
second value, never the first. -/
theorem last_write_wins (db : Db) (sect key v1 v2 vt : String) (e : Nat)
    (srow : SectionRow) (vrow : ValueTypeRow)
    (db1 db2 db3 db4 : Db) (i1 i2 : Nat)
    (hs : db.config_sections.find? (fun r => r.name == some sect) = some srow)
    (hv : db.config_value_types.find? (fun r => r.name == vt) = some vrow)
    (h1 : set_config_value db sect key v1 vt = Except.ok (db1, i1))
    (h2 : db2 = (add_env_cfg_value db1 e i1).1)
    (h3 : set_config_value db2 sect key v2 vt = Except.ok (db3, i2))
    (h4 : db4 = (add_env_cfg_value db3 e i2).1) :
    (resolve_value_row db4 e srow.id key).map ConfigValueRow.cfg_value = some v2 := by
  obtain ⟨sid1, vid1, hfs1, hfv1, hdb1, hi1⟩ :=
    set_config_value_ok_shape db db1 sect key v1 vt i1 h1
  obtain ⟨sid2, vid2, hfs2, hfv2, hdb3, hi2⟩ :=
    set_config_value_ok_shape db2 db3 sect key v2 vt i2 h3
  have hsec2 : db2.config_sections = db.config_sections := by
    rw [h2, hdb1]
    simp [add_env_cfg_value]
  have hsid2 : sid2 = srow.id := by
    rw [hsec2, hs, Option.map_some'] at hfs2
    exact (Option.some.injEq _ _ ▸ hfs2).symm
  have hcv4 : db4.config_values
      = db2.config_values ++ [⟨db2.cfg_next, sid2, key, v2, vid2, none⟩] := by
    rw [h4, hdb3]
    simp [add_env_cfg_value]
  have hj4 : db4.environments_config_values
      = db2.environments_config_values ++ [⟨e, i2⟩] := by
    rw [h4, hdb3]
    simp [add_env_cfg_value]
  unfold resolve_value_row
  rw [hcv4, getLast?_filter_concat]
  · rfl
  · subst hsid2
    subst hi2
    rw [hj4]
    simp [List.any_append, beq_self_eq_true]

/-- Witness for C8: in a concrete store, writing "A" and then "B" for
`(environment 7, section 1, key host)` resolves to "B". -/
theorem last_write_wins_witness :
    (resolve_value_row db4W 7 1 "host").map ConfigValueRow.cfg_value = some "B" :=
  last_write_wins dbW "db" "host" "A" "B" "string" 7 ⟨1, some "db"⟩ ⟨1, "string"⟩
    db1W db2W db3W db4W 1 2 (by rfl) (by rfl) (by rfl) (by rfl) (by rfl) (by rfl)
